import Mathlib

/-!
# FactoryLink — verification of the manufacturer data-table pipeline and auth store

Shallow embedding of the filter/sort/paginate/CSV pipeline of the
`ManufacturerDataTable` component and of the mock authentication store
(`authStore.ts`).  JavaScript strings are modelled as `List Char`
(`Str`), JS numbers appearing in the data as `Int` (all mock values are
integers; the one-decimal `rating` field is carried as `rating10`, the
rating multiplied by ten, which embeds the comparisons `rating < 4.5`
etc. exactly).  Timestamps are milliseconds since epoch (`Int`).
-/

/-- JS strings, modelled as their character lists (`String.data`). -/
abbrev Str := List Char

/-- Shorthand turning a Lean string literal into the `Str` model. -/
def str (s : String) : Str := s.data

/-- JS `String.prototype.toLowerCase` (ASCII data throughout the repo). -/
def lowerStr (s : Str) : Str := s.map Char.toLower

/-- JS `Array.prototype.join(' ')`. -/
def joinSpace (l : List Str) : Str := List.intercalate [' '] l

/-- JS `Array.prototype.join('; ')`. -/
def joinSemi (l : List Str) : Str := List.intercalate (str "; ") l

/-- The fields of `Manufacturer` (src/types) read by the data-table pipeline. -/
structure Manufacturer where
  id : Str
  name : Str
  city : Str
  state : Str
  industryKeywords : Str
  primaryApplications : Str
  capabilities : List Str
  materials : List Str
  certifications : List Str
  numberOfEmployees : Int
  annualRevenue : Int
  currentCapacity : Int
  /-- The `rating` scaled by 10: the mock ratings have one decimal digit, so
  `rating10 = 45` stands for the JS number `4.5`. -/
  rating10 : Int
  sustainabilityScore : Int
  yearEstablished : Int
  moq : Int
  leadTimeDays : Int
  diversityFlag : Bool
  deriving Repr, DecidableEq

/-- The `FilterState` of the data-table component. -/
structure FilterState where
  search : Str
  capabilities : List Str
  materials : List Str
  certifications : List Str
  states : List Str
  employeeRange : Str
  revenueRange : Str
  capacityRange : Str
  ratingRange : Str
  diversityFlag : Option Bool
  sustainabilityMin : Int
  yearEstablishedRange : Str
  deriving Repr, DecidableEq

/-- The initial / cleared filter configuration (`useState` initialiser and
`clearAllFilters`). -/
def defaultFilters : FilterState where
  search := []
  capabilities := []
  materials := []
  certifications := []
  states := []
  employeeRange := str "all"
  revenueRange := str "all"
  capacityRange := str "all"
  ratingRange := str "all"
  diversityFlag := none
  sustainabilityMin := 0
  yearEstablishedRange := str "all"

/-- The `searchableText` built by the search filter: `[name, city, state,
industryKeywords, primaryApplications, ...capabilities, ...materials]`
joined with `' '` (note: `certifications` is NOT part of it). -/
def searchableText (m : Manufacturer) : Str :=
  joinSpace ([m.name, m.city, m.state, m.industryKeywords, m.primaryApplications]
    ++ m.capabilities ++ m.materials)

/-- The search predicate guard: skipped when `filters.search` is falsy
(the empty string), otherwise a case-insensitive substring test. -/
def searchPass (f : FilterState) (m : Manufacturer) : Bool :=
  if f.search = [] then true
  else decide (lowerStr f.search <:+: lowerStr (searchableText m))

/-- Guard `filters.capabilities.some(cap => manufacturer.capabilities.includes(cap))`,
skipped when the selection is empty. -/
def capsPass (f : FilterState) (m : Manufacturer) : Bool :=
  if f.capabilities = [] then true
  else f.capabilities.any (fun cap => m.capabilities.contains cap)

/-- Materials multi-select guard. -/
def matsPass (f : FilterState) (m : Manufacturer) : Bool :=
  if f.materials = [] then true
  else f.materials.any (fun mat => m.materials.contains mat)

/-- Certifications multi-select guard. -/
def certsPass (f : FilterState) (m : Manufacturer) : Bool :=
  if f.certifications = [] then true
  else f.certifications.any (fun cert => m.certifications.contains cert)

/-- States multi-select guard: `filters.states.includes(manufacturer.state)`. -/
def statesPass (f : FilterState) (m : Manufacturer) : Bool :=
  if f.states = [] then true
  else f.states.contains m.state

/-- Employee-count bucket guard (`switch (filters.employeeRange)`); an
unlisted bucket label falls through the `switch` and passes. -/
def empPass (f : FilterState) (m : Manufacturer) : Bool :=
  if f.employeeRange = str "all" then true
  else
    let e := m.numberOfEmployees
    if f.employeeRange = str "1-25" then !(e < 1 || e > 25)
    else if f.employeeRange = str "26-50" then !(e < 26 || e > 50)
    else if f.employeeRange = str "51-100" then !(e < 51 || e > 100)
    else if f.employeeRange = str "101-250" then !(e < 101 || e > 250)
    else if f.employeeRange = str "251-500" then !(e < 251 || e > 500)
    else if f.employeeRange = str "500+" then !(e < 500)
    else true

/-- Revenue bucket guard. -/
def revPass (f : FilterState) (m : Manufacturer) : Bool :=
  if f.revenueRange = str "all" then true
  else
    let r := m.annualRevenue
    if f.revenueRange = str "0-1M" then !(r ≥ 1000000)
    else if f.revenueRange = str "1M-10M" then !(r < 1000000 || r ≥ 10000000)
    else if f.revenueRange = str "10M-50M" then !(r < 10000000 || r ≥ 50000000)
    else if f.revenueRange = str "50M-100M" then !(r < 50000000 || r ≥ 100000000)
    else if f.revenueRange = str "100M+" then !(r < 100000000)
    else true

/-- Capacity bucket guard. -/
def capacityPass (f : FilterState) (m : Manufacturer) : Bool :=
  if f.capacityRange = str "all" then true
  else
    let c := m.currentCapacity
    if f.capacityRange = str "low" then !(c ≥ 50)
    else if f.capacityRange = str "medium" then !(c < 50 || c ≥ 80)
    else if f.capacityRange = str "high" then !(c < 80)
    else true

/-- Rating floor guard (`rating < 4.5` becomes `rating10 < 45`). -/
def ratingPass (f : FilterState) (m : Manufacturer) : Bool :=
  if f.ratingRange = str "all" then true
  else
    let r := m.rating10
    if f.ratingRange = str "4.5+" then !(r < 45)
    else if f.ratingRange = str "4.0+" then !(r < 40)
    else if f.ratingRange = str "3.5+" then !(r < 35)
    else true

/-- Tri-state diversity guard. -/
def diversityPass (f : FilterState) (m : Manufacturer) : Bool :=
  match f.diversityFlag with
  | none => true
  | some b => !(m.diversityFlag != b)

/-- Sustainability minimum guard (skipped when the threshold is 0). -/
def sustainabilityPass (f : FilterState) (m : Manufacturer) : Bool :=
  if f.sustainabilityMin > 0 then !(m.sustainabilityScore < f.sustainabilityMin)
  else true

/-- Year-established age bucket guard; `currentYear` is
`new Date().getFullYear()`, passed in explicitly. -/
def yearPass (currentYear : Int) (f : FilterState) (m : Manufacturer) : Bool :=
  if f.yearEstablishedRange = str "all" then true
  else
    let age := currentYear - m.yearEstablished
    if f.yearEstablishedRange = str "0-5" then !(age > 5)
    else if f.yearEstablishedRange = str "6-15" then !(age ≤ 5 || age > 15)
    else if f.yearEstablishedRange = str "16-30" then !(age ≤ 15 || age > 30)
    else if f.yearEstablishedRange = str "30+" then !(age ≤ 30)
    else true

/-- The record predicate of `filteredAndSortedData`: the twelve guards in
source order, combined by early-return (`&&`). -/
def manufacturerPasses (currentYear : Int) (f : FilterState) (m : Manufacturer) : Bool :=
  searchPass f m && capsPass f m && matsPass f m && certsPass f m &&
  statesPass f m && empPass f m && revPass f m && capacityPass f m &&
  ratingPass f m && diversityPass f m && sustainabilityPass f m &&
  yearPass currentYear f m

/-- The filtering stage of `filteredAndSortedData`. -/
def filterData (currentYear : Int) (f : FilterState) (ms : List Manufacturer) :
    List Manufacturer :=
  ms.filter (manufacturerPasses currentYear f)

/-- The searchable concatenation as the spec sentence words it: name, city,
state, classification keywords, and the members of ALL set-valued
attributes — capabilities, materials, AND certifications.  Used only to
compare the specified text against the implemented one. -/
def specSearchableText (m : Manufacturer) : Str :=
  joinSpace ([m.name, m.city, m.state, m.industryKeywords, m.primaryApplications]
    ++ m.capabilities ++ m.materials ++ m.certifications)

/-- A record whose only occurrence of the search term is inside its
`certifications` set. -/
def certOnlyRecord : Manufacturer where
  id := str "m1"
  name := str "Alpha Corp"
  city := str "Austin"
  state := str "TX"
  industryKeywords := str "metal"
  primaryApplications := str "frames"
  capabilities := [str "Welding"]
  materials := [str "Steel"]
  certifications := [str "ISO9001"]
  numberOfEmployees := 10
  annualRevenue := 500000
  currentCapacity := 60
  rating10 := 40
  sustainabilityScore := 50
  yearEstablished := 2000
  moq := 100
  leadTimeDays := 14
  diversityFlag := false

/-- A configuration searching for that certification. -/
def certSearchFilters : FilterState := { defaultFilters with search := str "iso9001" }


/-- C1 (counterexample): the implemented text-search predicate does NOT
search certifications.  `certOnlyRecord` carries the term "iso9001" only
in its `certifications` set: the spec-worded concatenation (which includes
all set-valued attributes) contains the lower-cased term, yet the
implemented predicate rejects the record. -/
theorem c1_counterexample :
    searchPass certSearchFilters certOnlyRecord = false ∧
    certSearchFilters.search ≠ [] ∧
    lowerStr certSearchFilters.search <:+: lowerStr (specSearchableText certOnlyRecord) := by
  decide

/-- C1 (amended): with all other filters at their defaults and a non-empty
search string, a record is in the filtered collection exactly when the
lower-cased search term is a substring of the lower-cased space-joined
concatenation of name, city, state, industry keywords, primary
applications, and the members of its capabilities and materials sets —
certifications are not searched. -/
theorem c1_search_amended (ms : List Manufacturer) (m : Manufacturer) (cy : Int)
    (s : Str) (h : s ≠ []) :
    m ∈ filterData cy { defaultFilters with search := s } ms ↔
      m ∈ ms ∧ lowerStr s <:+: lowerStr (searchableText m) := by
  simp [filterData, List.mem_filter, manufacturerPasses, searchPass, capsPass,
    matsPass, certsPass, statesPass, empPass, revPass, capacityPass, ratingPass,
    diversityPass, sustainabilityPass, yearPass, defaultFilters, h]

/-- C1 amended, witnessed at a concrete record and search term. -/
theorem c1_search_amended_witness :
    certOnlyRecord ∈ filterData 2025 { defaultFilters with search := str "welding" }
      [certOnlyRecord] :=
  (c1_search_amended [certOnlyRecord] certOnlyRecord 2025 (str "welding")
    (by decide)).mpr ⟨by decide, by decide⟩

/-- Computes `Math.ceil(totalItems / itemsPerPage)` (exact for the positive page
sizes offered by the UI). -/
def totalPagesOf (totalItems itemsPerPage : Nat) : Nat :=
  (totalItems + itemsPerPage - 1) / itemsPerPage

/-- The pagination-relevant state of the data-table component.
`totalItems`/`totalPages` are derived on every render, so they are
recomputed rather than stored. -/
structure TableState where
  filters : FilterState
  currentPage : Nat
  itemsPerPage : Nat
  deriving Repr, DecidableEq

/-- Mount state: `currentPage = 1`, `itemsPerPage = 25`. -/
def initTableState : TableState := ⟨defaultFilters, 1, 25⟩

/-- Derived `totalItems` of a table state. -/
def filteredCount (cy : Int) (ms : List Manufacturer) (s : TableState) : Nat :=
  (filterData cy s.filters ms).length

/-- Derived `totalPages` of a table state. -/
def tablePages (cy : Int) (ms : List Manufacturer) (s : TableState) : Nat :=
  totalPagesOf (filteredCount cy ms s) s.itemsPerPage

/-- One user operation on the table, with the enabling conditions of the
UI controls: `updateFilter`/`toggleFilterArray`/`clearAllFilters` replace
the filters and reset `currentPage` to 1; the page-size select resets to
page 1; previous is disabled on page 1; next is disabled only when
`currentPage === totalPages`; the numbered buttons offer pages
`1 .. min 5 totalPages`. -/
inductive Step (cy : Int) (ms : List Manufacturer) : TableState → TableState → Prop where
  | setFilters (s : TableState) (f : FilterState) :
      Step cy ms s ⟨f, 1, s.itemsPerPage⟩
  | setItemsPerPage (s : TableState) (n : Nat)
      (hn : n = 10 ∨ n = 25 ∨ n = 50 ∨ n = 100) :
      Step cy ms s ⟨s.filters, 1, n⟩
  | prevPage (s : TableState) (h : s.currentPage ≠ 1) :
      Step cy ms s ⟨s.filters, s.currentPage - 1, s.itemsPerPage⟩
  | nextPage (s : TableState) (h : s.currentPage ≠ tablePages cy ms s) :
      Step cy ms s ⟨s.filters, s.currentPage + 1, s.itemsPerPage⟩
  | gotoPage (s : TableState) (k : Nat) (h1 : 1 ≤ k)
      (h2 : k ≤ min 5 (tablePages cy ms s)) :
      Step cy ms s ⟨s.filters, k, s.itemsPerPage⟩

/-- States reachable from the mount state by user operations. -/
inductive Reachable (cy : Int) (ms : List Manufacturer) : TableState → Prop where
  | init : Reachable cy ms initTableState
  | step {s s' : TableState} : Reachable cy ms s → Step cy ms s s' →
      Reachable cy ms s'

/-- C2 (counterexample): with an empty collection `totalPages = 0`, so the
next-page button is NOT disabled on page 1 (`1 !== 0`); pressing it
reaches `currentPage = 2`, violating `currentPage ≤ max 1 totalPages`. -/
theorem c2_counterexample :
    Reachable 2025 [] ⟨defaultFilters, 2, 25⟩ ∧
    ¬ (⟨defaultFilters, 2, 25⟩ : TableState).currentPage ≤
        max 1 (tablePages 2025 [] ⟨defaultFilters, 2, 25⟩) := by
  constructor
  · exact Reachable.step Reachable.init (Step.nextPage initTableState (by decide))
  · decide

/-- Preservation: one step keeps `1 ≤ currentPage` and keeps
`currentPage ≤ totalPages` unless the filtered collection is empty. -/
theorem step_preserves_pageBounds (cy : Int) (ms : List Manufacturer)
    {s s' : TableState} (hstep : Step cy ms s s')
    (ih : 1 ≤ s.currentPage ∧
      (tablePages cy ms s = 0 ∨ s.currentPage ≤ tablePages cy ms s)) :
    1 ≤ s'.currentPage ∧
      (tablePages cy ms s' = 0 ∨ s'.currentPage ≤ tablePages cy ms s') := by
  cases hstep with
  | setFilters f => exact ⟨le_refl 1, Nat.eq_zero_or_pos _⟩
  | setItemsPerPage n hn => exact ⟨le_refl 1, Nat.eq_zero_or_pos _⟩
  | prevPage h =>
    constructor
    · show 1 ≤ s.currentPage - 1
      omega
    · show tablePages cy ms s = 0 ∨ s.currentPage - 1 ≤ tablePages cy ms s
      omega
  | nextPage h =>
    constructor
    · show 1 ≤ s.currentPage + 1
      omega
    · show tablePages cy ms s = 0 ∨ s.currentPage + 1 ≤ tablePages cy ms s
      omega
  | gotoPage k h1 h2 =>
    refine ⟨h1, Or.inr ?_⟩
    show k ≤ tablePages cy ms s
    omega

/-- C2 (amended): `1 ≤ currentPage` always holds, and
`currentPage ≤ totalPages` holds whenever the filtered collection is
non-empty (`totalPages ≥ 1`); when `totalPages = 0` the next-page button
is not disabled and `currentPage` can exceed `max 1 totalPages`.  Every
filter change still resets `currentPage` to 1. -/
theorem c2_pagination_amended :
    (∀ (cy : Int) (ms : List Manufacturer) (s : TableState),
      Reachable cy ms s →
        1 ≤ s.currentPage ∧
        (tablePages cy ms s = 0 ∨ s.currentPage ≤ tablePages cy ms s)) ∧
    (∀ (cy : Int) (ms : List Manufacturer) (s s' : TableState),
      Step cy ms s s' → s'.filters ≠ s.filters → s'.currentPage = 1) := by
  constructor
  · intro cy ms s hreach
    induction hreach with
    | init => exact ⟨le_refl 1, Nat.eq_zero_or_pos _⟩
    | step hr hstep ih => exact step_preserves_pageBounds cy ms hstep ih
  · intro cy ms s s' hstep hne
    cases hstep with
    | setFilters f => rfl
    | setItemsPerPage n hn => exact absurd rfl hne
    | prevPage h => exact absurd rfl hne
    | nextPage h => exact absurd rfl hne
    | gotoPage k h1 h2 => exact absurd rfl hne

/-- C2 amended, witnessed at the mount state over the empty collection. -/
theorem c2_pagination_amended_witness :
    1 ≤ initTableState.currentPage ∧
    (tablePages 2025 [] initTableState = 0 ∨
      initTableState.currentPage ≤ tablePages 2025 [] initTableState) :=
  c2_pagination_amended.1 2025 [] initTableState Reachable.init

/-- The slice taken by `paginatedData`:
`filteredAndSortedData.slice((p-1)*itemsPerPage, p*itemsPerPage)`. -/
def pageSlice (l : List Manufacturer) (p n : Nat) : List Manufacturer :=
  (l.drop ((p - 1) * n)).take n

/-- Concatenating the first `k` chunks of size `n` gives the first `k*n`
elements. -/
theorem pagesJoin_eq_take {α : Type} (l : List α) (n : Nat) (k : Nat) :
    ((List.range k).map (fun i => (l.drop (i * n)).take n)).flatten = l.take (k * n) := by
  induction k with
  | zero => simp
  | succ k ih =>
    rw [List.range_succ, List.map_append, List.flatten_append, ih]
    simp [Nat.succ_mul, List.take_add]

/-- The product `ceil(len/n) * n` covers `len`. -/
theorem length_le_totalPages_mul (len n : Nat) (hn : 0 < n) :
    len ≤ totalPagesOf len n * n := by
  have h := Nat.div_add_mod (len + n - 1) n
  have h2 : (len + n - 1) % n < n := Nat.mod_lt _ hn
  unfold totalPagesOf
  rw [Nat.mul_comm]
  omega

/-- C6: for every collection and positive page size, the page slices for
pages `1 .. totalPages` concatenate back to the collection: every record
appears exactly once, in order. -/
theorem c6_pagination_partition (l : List Manufacturer) (n : Nat) (hn : 0 < n) :
    ((List.range (totalPagesOf l.length n)).map (fun p => pageSlice l (p + 1) n)).flatten
      = l := by
  have hs : (fun p => pageSlice l (p + 1) n) = fun i => (l.drop (i * n)).take n := by
    funext i
    simp [pageSlice]
  rw [hs, pagesJoin_eq_take]
  exact List.take_of_length_le (length_le_totalPages_mul l.length n hn)

/-- Two more sample records for concrete evaluations. -/
def sampleRecord (nm : String) : Manufacturer :=
  { certOnlyRecord with id := str nm, name := str nm }

/-- C6, witnessed: three records, page size two, two pages. -/
theorem c6_pagination_partition_witness :
    ((List.range (totalPagesOf ([certOnlyRecord, sampleRecord "b", sampleRecord "c"] :
        List Manufacturer).length 2)).map
      (fun p => pageSlice [certOnlyRecord, sampleRecord "b", sampleRecord "c"] (p + 1) 2)).flatten
      = [certOnlyRecord, sampleRecord "b", sampleRecord "c"] :=
  c6_pagination_partition [certOnlyRecord, sampleRecord "b", sampleRecord "c"] 2 (by decide)

/-- The sort stage of `filteredAndSortedData`: a stable sort under the JS
comparator `(a,b) => aValue < bValue ? ±1 : aValue > bValue ? ∓1 : 0`.
`a` may stay before `b` exactly when the comparator is ≤ 0: ascending when
`key a ≤ key b`, descending when `key b ≤ key a`. -/
def sortData {K : Type} [LinearOrder K] (key : Manufacturer → K) (asc : Bool)
    (l : List Manufacturer) : List Manufacturer :=
  l.mergeSort (fun a b =>
    if asc then decide (key a ≤ key b) else decide (key b ≤ key a))

/-- C9: on a collection whose values at the sort key are pairwise
distinct, sorting descending yields exactly the reverse of sorting
ascending. -/
theorem c9_sort_reverse {K : Type} [LinearOrder K] (key : Manufacturer → K)
    (l : List Manufacturer) (hnd : (l.map key).Nodup) :
    sortData key false l = (sortData key true l).reverse := by
  have hA : sortData key true l = l.mergeSort (fun a b => decide (key a ≤ key b)) := by
    simp [sortData]
  have hD : sortData key false l = l.mergeSort (fun a b => decide (key b ≤ key a)) := by
    simp [sortData]
  have hpa : List.Perm (sortData key true l) l := by rw [hA]; exact List.mergeSort_perm l _
  have hpd : List.Perm (sortData key false l) l := by rw [hD]; exact List.mergeSort_perm l _
  -- sortedness of the two runs
  have hsA : (sortData key true l).Pairwise (fun a b => key a ≤ key b) := by
    rw [hA]
    have := @List.sorted_mergeSort Manufacturer (fun a b => decide (key a ≤ key b))
      (fun a b c h1 h2 => by
        simp only [decide_eq_true_eq] at *
        exact le_trans h1 h2)
      (fun a b => by
        simp only [Bool.or_eq_true, decide_eq_true_eq]
        exact le_total (key a) (key b))
      l
    exact this.imp (fun h => by simpa using h)
  have hsD : (sortData key false l).Pairwise (fun a b => key b ≤ key a) := by
    rw [hD]
    have := @List.sorted_mergeSort Manufacturer (fun a b => decide (key b ≤ key a))
      (fun a b c h1 h2 => by
        simp only [decide_eq_true_eq] at *
        exact le_trans h2 h1)
      (fun a b => by
        simp only [Bool.or_eq_true, decide_eq_true_eq]
        exact le_total (key b) (key a))
      l
    exact this.imp (fun h => by simpa using h)
  -- distinct keys along each run
  have hneA : (sortData key true l).Pairwise (fun a b => key a ≠ key b) := by
    have : ((sortData key true l).map key).Nodup :=
      ((hpa.map key).nodup_iff).mpr hnd
    exact (List.pairwise_map).mp this
  have hneD : (sortData key false l).Pairwise (fun a b => key a ≠ key b) := by
    have : ((sortData key false l).map key).Nodup :=
      ((hpd.map key).nodup_iff).mpr hnd
    exact (List.pairwise_map).mp this
  -- strict sortedness under the descending order, for both sides
  have hstrictD : (sortData key false l).Pairwise (fun a b => key b < key a) :=
    (hsD.and hneD).imp (fun h => lt_of_le_of_ne h.1 (Ne.symm h.2))
  have hstrictArev : (sortData key true l).reverse.Pairwise (fun a b => key b < key a) := by
    rw [List.pairwise_reverse]
    exact (hsA.and hneA).imp (fun h => lt_of_le_of_ne h.1 h.2)
  have hrev : List.Perm (sortData key true l).reverse (sortData key true l) :=
    List.reverse_perm _
  have hperm : List.Perm (sortData key false l) (sortData key true l).reverse :=
    hpd.trans (hpa.symm.trans hrev.symm)
  haveI : IsAntisymm Manufacturer (fun a b => key b < key a) :=
    ⟨fun _ _ h1 h2 => ((lt_asymm h1) h2).elim⟩
  exact List.eq_of_perm_of_sorted hperm hstrictD hstrictArev

/-- C9, witnessed on two records with distinct employee counts. -/
theorem c9_sort_reverse_witness :
    sortData Manufacturer.numberOfEmployees false
        [certOnlyRecord, { sampleRecord "b" with numberOfEmployees := 99 }] =
      (sortData Manufacturer.numberOfEmployees true
        [certOnlyRecord, { sampleRecord "b" with numberOfEmployees := 99 }]).reverse :=
  c9_sort_reverse Manufacturer.numberOfEmployees
    [certOnlyRecord, { sampleRecord "b" with numberOfEmployees := 99 }] (by decide)

/-- JS `Array.prototype.join(sep)` (by structural recursion, for reasoning). -/
def sepJoin (sep : Str) : List Str → Str
  | [] => []
  | [x] => x
  | x :: xs => x ++ sep ++ sepJoin sep xs

/-- JS `String(cell).replace(/"/g, '""')`. -/
def escapeQuotes (s : Str) : Str :=
  s.flatMap (fun c => if c = '"' then ['"', '"'] else [c])

/-- One CSV cell: wrapped in double quotes, internal quotes doubled —
applied unconditionally. -/
def quoteCell (s : Str) : Str := '"' :: (escapeQuotes s ++ ['"'])

/-- One CSV row: quoted cells joined by `','`. -/
def csvRow (cells : List Str) : Str := sepJoin [','] (cells.map quoteCell)

/-- The CSV text: rows joined by `'\n'`. -/
def csvTable (rows : List (List Str)) : Str := sepJoin ['\n'] (rows.map csvRow)

/-- JS `String(n)` for an integer-valued number. -/
def intToStr (i : Int) : Str :=
  if i < 0 then '-' :: Nat.toDigits 10 i.natAbs else Nat.toDigits 10 i.toNat

/-- JS `String(r)` for the one-decimal rating carried as `rating10`
(`String(4.5) = "4.5"`, `String(4) = "4"`; mock ratings are
non-negative). -/
def ratingToStr (r10 : Int) : Str :=
  if r10 % 10 = 0 then intToStr (r10 / 10)
  else intToStr (r10 / 10) ++ '.' :: Nat.toDigits 10 (r10 % 10).toNat

/-- The fixed 15-column header row of `generateCSV`. -/
def csvHeaders : List Str :=
  [str "Name", str "City", str "State", str "Industry", str "Employees",
   str "Revenue", str "Rating", str "MOQ", str "Lead Time", str "Capacity",
   str "Sustainability", str "Founded", str "Capabilities", str "Materials",
   str "Certifications"]

/-- The 15 cells `generateCSV` renders for one record (set-valued
attributes joined by `'; '`). -/
def csvCells (m : Manufacturer) : List Str :=
  [m.name, m.city, m.state, m.industryKeywords,
   intToStr m.numberOfEmployees, intToStr m.annualRevenue, ratingToStr m.rating10,
   intToStr m.moq, intToStr m.leadTimeDays, intToStr m.currentCapacity,
   intToStr m.sustainabilityScore, intToStr m.yearEstablished,
   joinSemi m.capabilities, joinSemi m.materials, joinSemi m.certifications]

/-- Embeds `generateCSV`: header row plus one row per record. -/
def generateCSV (data : List Manufacturer) : Str :=
  csvTable (csvHeaders :: data.map csvCells)

/-- Standard CSV parsing of a fully-quoted cell body: `""` is a literal
quote, a single `"` closes the cell.  Returns the cell content and the
remaining input. -/
def parseContent : Str → Option (Str × Str)
  | [] => none
  | c :: cs =>
    if c = '"' then
      match cs with
      | [] => some ([], [])
      | c2 :: cs2 =>
        if c2 = '"' then (parseContent cs2).map (fun p => ('"' :: p.1, p.2))
        else some ([], cs)
    else (parseContent cs).map (fun p => (c :: p.1, p.2))

/-- A cell must open with a quote. -/
def parseCell (s : Str) : Option (Str × Str) :=
  match s with
  | '"' :: cs => parseContent cs
  | _ => none

/-- Parse the comma-separated cells of one row (fuelled recursion). -/
def parseRowCells : Nat → Str → Option (List Str × Str)
  | 0, _ => none
  | fuel + 1, s =>
    match parseCell s with
    | none => none
    | some (c, r) =>
      match r with
      | ',' :: r' =>
        match parseRowCells fuel r' with
        | none => none
        | some (cs, r'') => some (c :: cs, r'')
      | _ => some ([c], r)

/-- Parse newline-separated rows (fuelled recursion). -/
def parseRowsAux : Nat → Str → Option (List (List Str))
  | 0, _ => none
  | fuel + 1, s =>
    match parseRowCells (s.length + 1) s with
    | none => none
    | some (cs, r) =>
      match r with
      | [] => some [cs]
      | '\n' :: r' => (parseRowsAux fuel r').map (cs :: ·)
      | _ => none

/-- A standard CSV parser for fully-quoted input. -/
def parseCSV (s : Str) : Option (List (List Str)) := parseRowsAux (s.length + 1) s

/-- Unfolding equation: a non-quote character is consumed into the cell. -/
theorem parseContent_other (c : Char) (cs : Str) (hc : c ≠ '"') :
    parseContent (c :: cs) = (parseContent cs).map (fun p => (c :: p.1, p.2)) := by
  conv_lhs => unfold parseContent
  rw [if_neg hc]

/-- Unfolding equation: a doubled quote is consumed as a literal quote. -/
theorem parseContent_qq (cs : Str) :
    parseContent ('"' :: '"' :: cs) = (parseContent cs).map (fun p => ('"' :: p.1, p.2)) := by
  conv_lhs => unfold parseContent
  simp

/-- Unfolding equation: a lone quote closes the cell. -/
theorem parseContent_close (c : Char) (cs : Str) (hc : c ≠ '"') :
    parseContent ('"' :: c :: cs) = some ([], c :: cs) := by
  conv_lhs => unfold parseContent
  simp [hc]

/-- Parsing an escaped cell body recovers the content, provided what
follows the closing quote does not itself start with a quote (in a
generated table the next character is a comma, a newline, or nothing). -/
theorem parseContent_escape (s : Str) : ∀ (rest : Str), rest.head? ≠ some '"' →
    parseContent (escapeQuotes s ++ '"' :: rest) = some (s, rest) := by
  induction s with
  | nil =>
    intro rest h
    show parseContent ('"' :: rest) = some ([], rest)
    cases rest with
    | nil => rfl
    | cons c cs =>
      have hc : c ≠ '"' := by
        intro hh
        exact h (by rw [hh]; rfl)
      exact parseContent_close c cs hc
  | cons c s' ih =>
    intro rest h
    by_cases hc : c = '"'
    · subst hc
      have he : escapeQuotes ('"' :: s') ++ '"' :: rest =
          '"' :: '"' :: (escapeQuotes s' ++ '"' :: rest) := by
        simp [escapeQuotes]
      rw [he, parseContent_qq, ih rest h]
      rfl
    · have he : escapeQuotes (c :: s') ++ '"' :: rest =
          c :: (escapeQuotes s' ++ '"' :: rest) := by
        simp [escapeQuotes, hc]
      rw [he, parseContent_other c _ hc, ih rest h]
      rfl

/-- Parsing a quoted cell recovers it. -/
theorem parseCell_quote (s rest : Str) (h : rest.head? ≠ some '"') :
    parseCell (quoteCell s ++ rest) = some (s, rest) := by
  have he : quoteCell s ++ rest = '"' :: (escapeQuotes s ++ '"' :: rest) := by
    simp [quoteCell]
  rw [he]
  show parseContent (escapeQuotes s ++ '"' :: rest) = some (s, rest)
  exact parseContent_escape s rest h

/-- A quoted cell occupies at least the two quote characters. -/
theorem quoteCell_length (s : Str) : 2 ≤ (quoteCell s).length := by
  simp [quoteCell]

/-- A row of `n` cells occupies at least `n` characters. -/
theorem csvRow_length_ge : ∀ (r : List Str), r ≠ [] → r.length ≤ (csvRow r).length := by
  intro r
  induction r with
  | nil => intro h; contradiction
  | cons c cs ih =>
    intro _
    cases cs with
    | nil =>
      have := quoteCell_length c
      simp [csvRow, sepJoin]
      omega
    | cons c2 cs2 =>
      have h1 := quoteCell_length c
      have h2 := ih (by simp)
      have he : csvRow (c :: c2 :: cs2) = quoteCell c ++ (',' :: csvRow (c2 :: cs2)) := by
        simp [csvRow, sepJoin]
      rw [he]
      simp only [List.length_append, List.length_cons]
      simp at h2 ⊢
      omega

/-- Parsing a generated row recovers its cells, provided the remaining
text is empty or starts with a newline. -/
theorem parseRowCells_row : ∀ (cells : List Str) (fuel : Nat) (rest : Str),
    cells ≠ [] → cells.length ≤ fuel →
    (rest = [] ∨ ∃ r', rest = '\n' :: r') →
    parseRowCells fuel (csvRow cells ++ rest) = some (cells, rest) := by
  intro cells
  induction cells with
  | nil => intro fuel rest h; contradiction
  | cons c cs ih =>
    intro fuel rest _ hfuel hrest
    have hhead : rest.head? ≠ some '"' := by
      rcases hrest with h | ⟨r', h⟩ <;> subst h <;> simp
    obtain ⟨f, rfl⟩ : ∃ f, fuel = f + 1 := by
      cases fuel with
      | zero => simp at hfuel
      | succ f => exact ⟨f, rfl⟩
    cases cs with
    | nil =>
      have he : csvRow [c] ++ rest = quoteCell c ++ rest := by
        simp [csvRow, sepJoin]
      rw [he]
      conv_lhs => unfold parseRowCells
      rw [parseCell_quote c rest hhead]
      rcases hrest with h | ⟨r', h⟩ <;> subst h <;> rfl
    | cons c2 cs2 =>
      have he : csvRow (c :: c2 :: cs2) ++ rest =
          quoteCell c ++ (',' :: (csvRow (c2 :: cs2) ++ rest)) := by
        simp [csvRow, sepJoin]
      rw [he]
      conv_lhs => unfold parseRowCells
      rw [parseCell_quote c _ (by simp)]
      have hih : parseRowCells f (csvRow (c2 :: cs2) ++ rest) =
          some (c2 :: cs2, rest) := by
        apply ih f rest (by simp) (by simp at hfuel ⊢; omega) hrest
      simp [hih]

/-- A table of `n` rows (each non-empty) occupies at least `n - 1`
characters. -/
theorem csvTable_length_ge : ∀ (rows : List (List Str)),
    (∀ r ∈ rows, r ≠ []) → rows.length ≤ (csvTable rows).length + 1 := by
  intro rows
  induction rows with
  | nil => intro _; simp
  | cons r rs ih =>
    intro hne
    cases rs with
    | nil =>
      have h1 := csvRow_length_ge r (hne r (by simp))
      have h2 : r.length ≥ 1 := by
        cases hr : r with
        | nil => exact absurd hr (hne r (by simp))
        | cons a as => simp
      simp [csvTable, sepJoin]
    | cons r2 rs2 =>
      have h1 := csvRow_length_ge r (hne r (by simp))
      have h2 : r.length ≥ 1 := by
        cases hr : r with
        | nil => exact absurd hr (hne r (by simp))
        | cons a as => simp
      have h3 := ih (fun x hx => hne x (by simp [hx]))
      have he : csvTable (r :: r2 :: rs2) = csvRow r ++ ('\n' :: csvTable (r2 :: rs2)) := by
        simp [csvTable, sepJoin]
      rw [he]
      simp only [List.length_append, List.length_cons] at h3 ⊢
      omega

/-- Parsing a generated table recovers its rows. -/
theorem parseRowsAux_table : ∀ (rows : List (List Str)) (fuel : Nat),
    rows ≠ [] → (∀ r ∈ rows, r ≠ []) → rows.length ≤ fuel →
    parseRowsAux fuel (csvTable rows) = some rows := by
  intro rows
  induction rows with
  | nil => intro fuel h; contradiction
  | cons r rs ih =>
    intro fuel _ hne hfuel
    obtain ⟨f, rfl⟩ : ∃ f, fuel = f + 1 := by
      cases fuel with
      | zero => simp at hfuel
      | succ f => exact ⟨f, rfl⟩
    cases rs with
    | nil =>
      have he : csvTable [r] = csvRow r ++ [] := by
        simp [csvTable, sepJoin]
      conv_lhs => unfold parseRowsAux
      have hrow : parseRowCells ((csvTable [r]).length + 1) (csvTable [r]) =
          some (r, []) := by
        rw [he]
        apply parseRowCells_row r _ [] (hne r (by simp)) ?_ (Or.inl rfl)
        have := csvRow_length_ge r (hne r (by simp))
        simp
        omega
      simp [hrow]
    | cons r2 rs2 =>
      have he : csvTable (r :: r2 :: rs2) =
          csvRow r ++ ('\n' :: csvTable (r2 :: rs2)) := by
        simp [csvTable, sepJoin]
      conv_lhs => unfold parseRowsAux
      have hrow : parseRowCells ((csvTable (r :: r2 :: rs2)).length + 1)
            (csvTable (r :: r2 :: rs2)) =
          some (r, '\n' :: csvTable (r2 :: rs2)) := by
        conv_lhs => rw [he]
        apply parseRowCells_row r _ _ (hne r (by simp)) ?_ (Or.inr ⟨_, rfl⟩)
        have h1 := csvRow_length_ge r (hne r (by simp))
        simp
        omega
      rw [hrow]
      have hih : parseRowsAux f (csvTable (r2 :: rs2)) = some (r2 :: rs2) := by
        apply ih f (by simp) (fun x hx => hne x (by simp [hx]))
        simp at hfuel ⊢
        omega
      simp [hih]

/-- C7: `generateCSV` emits the fixed 15-column header row followed by one
quoted row per selected record, and a standard CSV parse of the output
recovers exactly those rows: one data row per record, each field equal to
the record's field rendered as a string. -/
theorem c7_csv_roundtrip (data : List Manufacturer) (_hne : data ≠ []) :
    parseCSV (generateCSV data) = some (csvHeaders :: data.map csvCells) := by
  have hnonempty : ∀ r ∈ csvHeaders :: data.map csvCells, r ≠ [] := by
    intro r hr
    simp only [List.mem_cons, List.mem_map] at hr
    rcases hr with h | ⟨m, _, h⟩ <;> subst h
    · simp [csvHeaders, str]
    · simp [csvCells]
  unfold parseCSV generateCSV
  apply parseRowsAux_table _ _ (by simp) hnonempty
  exact csvTable_length_ge _ hnonempty

/-- C7, witnessed on a single selected record. -/
theorem c7_csv_roundtrip_witness :
    parseCSV (generateCSV [certOnlyRecord]) =
      some (csvHeaders :: [certOnlyRecord].map csvCells) :=
  c7_csv_roundtrip [certOnlyRecord] (by simp)

/-- The `SortConfig`: a sort key (`null` at mount) and a direction. -/
structure SortConfig where
  key : Option Str
  ascending : Bool
  deriving Repr, DecidableEq

/-- The component state touched by `exportData`. -/
structure ComponentState where
  selectedRows : List Str
  filters : FilterState
  sortConfig : SortConfig
  currentPage : Nat
  itemsPerPage : Nat
  isLoading : Bool
  error : Option Str
  deriving Repr, DecidableEq

/-- The component state at mount. -/
def initComponentState : ComponentState where
  selectedRows := []
  filters := defaultFilters
  sortConfig := ⟨none, true⟩
  currentPage := 1
  itemsPerPage := 25
  isLoading := false
  error := none

/-- Observable side effects of `exportData`. -/
inductive Effect where
  | toastError (msg : Str)
  | toastSuccessExported (count : Nat)
  | downloadCSV (content : Str) (filename : Str)
  deriving Repr, DecidableEq

/-- The error toast shown for an empty selection. -/
def exportErrorMsg : Str := str "Please select rows to export"

/-- Embeds `exportData`: an empty selection short-circuits with an error toast;
otherwise the selected records are serialized and downloaded (the
`isLoading` flag is set and cleared within the same call). -/
def exportData (ms : List Manufacturer) (s : ComponentState) :
    ComponentState × List Effect :=
  if s.selectedRows = [] then
    (s, [Effect.toastError exportErrorMsg])
  else
    let selectedData := ms.filter (fun m => s.selectedRows.contains m.id)
    let csvContent := generateCSV selectedData
    ({ s with isLoading := false },
      [Effect.downloadCSV csvContent (str "manufacturer-data.csv"),
        Effect.toastSuccessExported selectedData.length])

/-- C8: with an empty selection, export reports an error toast, produces
no download (and hence no serialization), and leaves the component state
— selection, filters, sort configuration, pagination — unchanged. -/
theorem c8_export_empty (ms : List Manufacturer) (s : ComponentState)
    (h : s.selectedRows = []) :
    exportData ms s = (s, [Effect.toastError exportErrorMsg]) := by
  simp [exportData, h]

/-- C8, witnessed at the mount state. -/
theorem c8_export_empty_witness :
    exportData [certOnlyRecord] initComponentState =
      (initComponentState, [Effect.toastError exportErrorMsg]) :=
  c8_export_empty [certOnlyRecord] initComponentState rfl

/-- A record as the filter pipeline actually receives it in JavaScript:
the attributes C3 considers possibly missing are `Option`-valued
(`none` = `undefined`). -/
structure JSManufacturer where
  name : Str
  city : Str
  state : Str
  industryKeywords : Str
  primaryApplications : Str
  capabilities : Option (List Str)
  materials : Option (List Str)
  certifications : Option (List Str)
  numberOfEmployees : Option Int
  annualRevenue : Option Int
  currentCapacity : Option Int
  rating10 : Option Int
  sustainabilityScore : Option Int
  yearEstablished : Option Int
  diversityFlag : Option Bool
  deriving Repr, DecidableEq

/-- JS `x < n` when `x` may be `undefined`: any comparison with
`undefined` is false. -/
def jsLt (x : Option Int) (n : Int) : Bool :=
  match x with
  | some v => v < n
  | none => false

/-- JS `x > n` with possibly-`undefined` `x`. -/
def jsGt (x : Option Int) (n : Int) : Bool :=
  match x with
  | some v => v > n
  | none => false

/-- JS `x >= n` with possibly-`undefined` `x`. -/
def jsGe (x : Option Int) (n : Int) : Bool :=
  match x with
  | some v => v ≥ n
  | none => false

/-- JS `cy - y > n`: `undefined` makes the subtraction `NaN`, and every
`NaN` comparison is false. -/
def jsAgeGt (cy : Int) (y : Option Int) (n : Int) : Bool :=
  match y with
  | some v => cy - v > n
  | none => false

/-- JS `cy - y <= n` (false on `NaN`). -/
def jsAgeLe (cy : Int) (y : Option Int) (n : Int) : Bool :=
  match y with
  | some v => cy - v ≤ n
  | none => false

/-- Early-return sequencing of the guard chain: a thrown `TypeError`
(`error`) or a `return false` stops evaluation. -/
def chainF (x : Except Unit Bool) (k : Except Unit Bool) : Except Unit Bool :=
  match x with
  | .error e => .error e
  | .ok false => .ok false
  | .ok true => k

/-- The search guard: spreads `manufacturer.capabilities` and
`manufacturer.materials`, so it throws when either is `undefined`. -/
def searchStepJS (f : FilterState) (m : JSManufacturer) : Except Unit Bool :=
  if f.search = [] then .ok true
  else
    match m.capabilities, m.materials with
    | some ca, some ma =>
      .ok (decide (lowerStr f.search <:+: lowerStr (joinSpace
        ([m.name, m.city, m.state, m.industryKeywords, m.primaryApplications]
          ++ ca ++ ma))))
    | _, _ => .error ()

/-- The capabilities guard: calls `.includes` on the record's set, so it
throws when the set is `undefined`. -/
def capsStepJS (f : FilterState) (m : JSManufacturer) : Except Unit Bool :=
  if f.capabilities = [] then .ok true
  else
    match m.capabilities with
    | some ca => .ok (f.capabilities.any (fun c => ca.contains c))
    | none => .error ()

/-- The materials guard. -/
def matsStepJS (f : FilterState) (m : JSManufacturer) : Except Unit Bool :=
  if f.materials = [] then .ok true
  else
    match m.materials with
    | some ma => .ok (f.materials.any (fun c => ma.contains c))
    | none => .error ()

/-- The certifications guard. -/
def certsStepJS (f : FilterState) (m : JSManufacturer) : Except Unit Bool :=
  if f.certifications = [] then .ok true
  else
    match m.certifications with
    | some ce => .ok (f.certifications.any (fun c => ce.contains c))
    | none => .error ()

/-- The states guard (reads a total attribute; never throws). -/
def statesStepJS (f : FilterState) (m : JSManufacturer) : Except Unit Bool :=
  .ok (if f.states = [] then true else f.states.contains m.state)

/-- The employee bucket guard under JS comparison semantics. -/
def empStepJS (f : FilterState) (m : JSManufacturer) : Except Unit Bool :=
  if f.employeeRange = str "all" then .ok true
  else
    let e := m.numberOfEmployees
    .ok (if f.employeeRange = str "1-25" then !(jsLt e 1 || jsGt e 25)
      else if f.employeeRange = str "26-50" then !(jsLt e 26 || jsGt e 50)
      else if f.employeeRange = str "51-100" then !(jsLt e 51 || jsGt e 100)
      else if f.employeeRange = str "101-250" then !(jsLt e 101 || jsGt e 250)
      else if f.employeeRange = str "251-500" then !(jsLt e 251 || jsGt e 500)
      else if f.employeeRange = str "500+" then !(jsLt e 500)
      else true)

/-- The revenue bucket guard under JS comparison semantics. -/
def revStepJS (f : FilterState) (m : JSManufacturer) : Except Unit Bool :=
  if f.revenueRange = str "all" then .ok true
  else
    let r := m.annualRevenue
    .ok (if f.revenueRange = str "0-1M" then !(jsGe r 1000000)
      else if f.revenueRange = str "1M-10M" then !(jsLt r 1000000 || jsGe r 10000000)
      else if f.revenueRange = str "10M-50M" then !(jsLt r 10000000 || jsGe r 50000000)
      else if f.revenueRange = str "50M-100M" then !(jsLt r 50000000 || jsGe r 100000000)
      else if f.revenueRange = str "100M+" then !(jsLt r 100000000)
      else true)

/-- The capacity bucket guard under JS comparison semantics. -/
def capacityStepJS (f : FilterState) (m : JSManufacturer) : Except Unit Bool :=
  if f.capacityRange = str "all" then .ok true
  else
    let c := m.currentCapacity
    .ok (if f.capacityRange = str "low" then !(jsGe c 50)
      else if f.capacityRange = str "medium" then !(jsLt c 50 || jsGe c 80)
      else if f.capacityRange = str "high" then !(jsLt c 80)
      else true)

/-- The rating floor guard under JS comparison semantics. -/
def ratingStepJS (f : FilterState) (m : JSManufacturer) : Except Unit Bool :=
  if f.ratingRange = str "all" then .ok true
  else
    let r := m.rating10
    .ok (if f.ratingRange = str "4.5+" then !(jsLt r 45)
      else if f.ratingRange = str "4.0+" then !(jsLt r 40)
      else if f.ratingRange = str "3.5+" then !(jsLt r 35)
      else true)

/-- The tri-state diversity guard: `undefined !== bool` is true, so a
record missing the flag is excluded. -/
def diversityStepJS (f : FilterState) (m : JSManufacturer) : Except Unit Bool :=
  match f.diversityFlag with
  | none => .ok true
  | some b => .ok (m.diversityFlag = some b)

/-- The sustainability guard under JS comparison semantics. -/
def sustainabilityStepJS (f : FilterState) (m : JSManufacturer) : Except Unit Bool :=
  if f.sustainabilityMin > 0 then .ok (!(jsLt m.sustainabilityScore f.sustainabilityMin))
  else .ok true

/-- The year-established bucket guard under JS `NaN` semantics. -/
def yearStepJS (cy : Int) (f : FilterState) (m : JSManufacturer) : Except Unit Bool :=
  if f.yearEstablishedRange = str "all" then .ok true
  else
    let y := m.yearEstablished
    .ok (if f.yearEstablishedRange = str "0-5" then !(jsAgeGt cy y 5)
      else if f.yearEstablishedRange = str "6-15" then !(jsAgeLe cy y 5 || jsAgeGt cy y 15)
      else if f.yearEstablishedRange = str "16-30" then !(jsAgeLe cy y 15 || jsAgeGt cy y 30)
      else if f.yearEstablishedRange = str "30+" then !(jsAgeLe cy y 30)
      else true)

/-- The full guard chain of `filteredAndSortedData`, in source order,
under JS semantics for missing attributes. -/
def filterJS (cy : Int) (f : FilterState) (m : JSManufacturer) : Except Unit Bool :=
  chainF (searchStepJS f m) (chainF (capsStepJS f m) (chainF (matsStepJS f m)
    (chainF (certsStepJS f m) (chainF (statesStepJS f m) (chainF (empStepJS f m)
    (chainF (revStepJS f m) (chainF (capacityStepJS f m) (chainF (ratingStepJS f m)
    (chainF (diversityStepJS f m) (chainF (sustainabilityStepJS f m)
    (yearStepJS cy f m)))))))))))

/-- A record whose `capabilities` attribute is missing. -/
def noCapsRecord : JSManufacturer where
  name := str "Gamma"
  city := str "Dallas"
  state := str "TX"
  industryKeywords := str "metal"
  primaryApplications := str "frames"
  capabilities := none
  materials := some [str "Steel"]
  certifications := some []
  numberOfEmployees := some 5
  annualRevenue := some 100
  currentCapacity := some 10
  rating10 := some 40
  sustainabilityScore := some 10
  yearEstablished := some 2000
  diversityFlag := some false

/-- A configuration with only the capabilities filter active. -/
def capsOnlyFilter : FilterState := { defaultFilters with capabilities := [str "Welding"] }

/-- C3 (counterexample): a record with an `undefined` capabilities set,
evaluated under an active capabilities filter, makes the pipeline throw a
`TypeError` — it is not silently excluded. -/
theorem c3_counterexample :
    filterJS 2025 capsOnlyFilter noCapsRecord = Except.error () ∧
    ∀ b : Bool, filterJS 2025 capsOnlyFilter noCapsRecord ≠ Except.ok b := by
  constructor
  · rfl
  · intro b h
    cases h

/-- C3 (amended): a record lacking a set-valued attribute makes the
pipeline throw a `TypeError` as soon as evaluation reaches a guard that
reads it — the search guard spreads capabilities and materials; each
multi-select guard calls `.includes` on its own set — rather than
excluding the record; every numeric bucket guard (employees, revenue,
capacity, rating, sustainability, year established) passes a record
missing its numeric attribute under every configuration, because every JS
comparison with `undefined` is false; only the tri-state diversity guard
excludes a record missing its flag. -/
theorem c3_missing_attr_amended :
    (∀ (cy : Int) (f : FilterState) (m : JSManufacturer),
      m.capabilities = none → f.search ≠ [] ∨ f.capabilities ≠ [] →
      filterJS cy f m = Except.error ()) ∧
    (∀ (cy : Int) (f : FilterState) (m : JSManufacturer),
      m.materials = none → f.search ≠ [] →
      filterJS cy f m = Except.error ()) ∧
    (∀ (cy : Int) (f : FilterState) (m : JSManufacturer),
      m.materials = none → f.materials ≠ [] → f.search = [] →
      capsStepJS f m = Except.ok true →
      filterJS cy f m = Except.error ()) ∧
    (∀ (cy : Int) (f : FilterState) (m : JSManufacturer),
      m.certifications = none → f.certifications ≠ [] → f.search = [] →
      capsStepJS f m = Except.ok true → matsStepJS f m = Except.ok true →
      filterJS cy f m = Except.error ()) ∧
    (∀ (f : FilterState) (m : JSManufacturer),
      m.numberOfEmployees = none → empStepJS f m = Except.ok true) ∧
    (∀ (f : FilterState) (m : JSManufacturer),
      m.annualRevenue = none → revStepJS f m = Except.ok true) ∧
    (∀ (f : FilterState) (m : JSManufacturer),
      m.currentCapacity = none → capacityStepJS f m = Except.ok true) ∧
    (∀ (f : FilterState) (m : JSManufacturer),
      m.rating10 = none → ratingStepJS f m = Except.ok true) ∧
    (∀ (f : FilterState) (m : JSManufacturer),
      m.sustainabilityScore = none → sustainabilityStepJS f m = Except.ok true) ∧
    (∀ (cy : Int) (f : FilterState) (m : JSManufacturer),
      m.yearEstablished = none → yearStepJS cy f m = Except.ok true) ∧
    (∀ (f : FilterState) (m : JSManufacturer) (b : Bool),
      m.diversityFlag = none → f.diversityFlag = some b →
      diversityStepJS f m = Except.ok false) := by
  refine ⟨?_, ?_, ?_, ?_, ?_, ?_, ?_, ?_, ?_, ?_, ?_⟩
  · intro cy f m hcap hor
    by_cases hs : f.search = []
    · rcases hor with hs2 | hcf
      · exact absurd hs hs2
      · have h1 : searchStepJS f m = .ok true := by
          simp [searchStepJS, hs]
        have h2 : capsStepJS f m = .error () := by
          simp [capsStepJS, hcf, hcap]
        simp [filterJS, h1, h2, chainF]
    · have h1 : searchStepJS f m = .error () := by
        simp [searchStepJS, hs, hcap]
      simp [filterJS, h1, chainF]
  · intro cy f m hmat hs
    have h1 : searchStepJS f m = .error () := by
      cases hc : m.capabilities <;> simp [searchStepJS, hs, hmat, hc]
    simp [filterJS, h1, chainF]
  · intro cy f m hmat hmf hs hcapok
    have h1 : searchStepJS f m = .ok true := by
      simp [searchStepJS, hs]
    have h3 : matsStepJS f m = .error () := by
      simp [matsStepJS, hmf, hmat]
    simp [filterJS, h1, hcapok, h3, chainF]
  · intro cy f m hcert hcf hs hcapok hmatok
    have h1 : searchStepJS f m = .ok true := by
      simp [searchStepJS, hs]
    have h4 : certsStepJS f m = .error () := by
      simp [certsStepJS, hcf, hcert]
    simp [filterJS, h1, hcapok, hmatok, h4, chainF]
  · intro f m h
    simp [empStepJS, h, jsLt, jsGt]
  · intro f m h
    simp [revStepJS, h, jsLt, jsGe]
  · intro f m h
    simp [capacityStepJS, h, jsLt, jsGe]
  · intro f m h
    simp [ratingStepJS, h, jsLt]
  · intro f m h
    simp [sustainabilityStepJS, h, jsLt]
  · intro cy f m h
    simp [yearStepJS, h, jsAgeGt, jsAgeLe]
  · intro f m b hm hf
    simp [diversityStepJS, hf, hm]

/-- C3 amended, witnessed: the capabilities conjunct throwing at
`noCapsRecord`, a numeric conjunct passing a record with its employee
count removed, and the diversity conjunct excluding a record with its
flag removed. -/
theorem c3_missing_attr_amended_witness :
    filterJS 2024 capsOnlyFilter noCapsRecord = Except.error () ∧
    empStepJS { defaultFilters with employeeRange := str "1-25" }
        { noCapsRecord with numberOfEmployees := none } = Except.ok true ∧
    diversityStepJS { defaultFilters with diversityFlag := some true }
        { noCapsRecord with diversityFlag := none } = Except.ok false := by
  obtain ⟨hA1, hA2, hA3, hA4, hB1, hB2, hB3, hB4, hB5, hB6, hC⟩ :=
    c3_missing_attr_amended
  exact ⟨hA1 2024 capsOnlyFilter noCapsRecord rfl (Or.inr (by decide)),
    hB1 _ _ rfl, hC _ _ true rfl rfl⟩

/-- Character class `[A-Z0-9._%+-]` of the email regex (case-insensitive
flag makes letters of either case acceptable). -/
def isLocalChar (c : Char) : Bool :=
  c.isAlpha || c.isDigit || c = '.' || c = '_' || c = '%' || c = '+' || c = '-'

/-- Character class `[A-Z0-9.-]` of the email regex. -/
def isDomainChar (c : Char) : Bool :=
  c.isAlpha || c.isDigit || c = '.' || c = '-'

/-- Matches `[A-Z0-9.-]+\.[A-Z]{2,}$`: since the final run of letters can
contain no dot, the pattern's dot is the last dot of the domain. -/
def domainValid (d : Str) : Bool :=
  let revD := d.reverse
  let tldRev := revD.takeWhile (fun c => c ≠ '.')
  match revD.dropWhile (fun c => c ≠ '.') with
  | '.' :: prevRev =>
    let tld := tldRev.reverse
    let p := prevRev.reverse
    !p.isEmpty && p.all isDomainChar && decide (tld.length ≥ 2) && tld.all Char.isAlpha
  | _ => false

/-- Embeds `validateEmailFormat`: the regex
`/^[A-Z0-9._%+-]+@[A-Z0-9.-]+\.[A-Z]{2,}$/i`.  The local class contains
no `'@'`, so the regex's `'@'` is the first `'@'` of the string. -/
def emailFormatValid (s : Str) : Bool :=
  let localPart := s.takeWhile (fun c => c ≠ '@')
  match s.dropWhile (fun c => c ≠ '@') with
  | '@' :: domain => !localPart.isEmpty && localPart.all isLocalChar && domainValid domain
  | _ => false

/-- The `AuthenticationLog.action` values used by the store. -/
inductive LogAction where
  | loginSuccess
  | loginFailed
  | registrationAttempt
  deriving Repr, DecidableEq

/-- An authentication-log entry (id/ip/userAgent metadata omitted;
timestamps are epoch milliseconds). -/
structure AuthLog where
  email : Str
  action : LogAction
  success : Bool
  timestamp : Int
  deriving Repr, DecidableEq

/-- Audit-trail actions on a deleted account. -/
inductive AuditAction where
  | accountDeleted
  | reregistrationAttempted
  deriving Repr, DecidableEq

/-- A `DeletedAccount` record (fields read by the store's logic). -/
structure DeletedAccount where
  id : Str
  email : Str
  firstName : Str
  lastName : Str
  phone : Option Str
  auditTrail : List AuditAction
  deriving Repr, DecidableEq

/-- The two distinct `blockReason` strings of `register`. -/
inductive BlockReason where
  | deletedCredentials
  | similarInfo
  deriving Repr, DecidableEq

/-- A `RegistrationAttempt` entry (id/timestamp/ip/userAgent metadata
omitted). -/
structure RegistrationAttempt where
  email : Str
  firstName : Str
  lastName : Str
  phone : Option Str
  blocked : Bool
  blockReason : Option BlockReason
  deletedAccountId : Option Str
  deriving Repr, DecidableEq

/-- The auth-store state (the signed-in user is carried as its email). -/
structure AuthState where
  user : Option Str
  isAuthenticated : Bool
  deletedAccounts : List DeletedAccount
  registrationAttempts : List RegistrationAttempt
  authenticationLogs : List AuthLog
  registeredEmails : List Str
  deriving Repr, DecidableEq

/-- Embeds `checkEmailExists`: `registeredEmails.includes(email.toLowerCase())`. -/
def checkEmailExists (st : AuthState) (email : Str) : Bool :=
  st.registeredEmails.contains (lowerStr email)

/-- The failed attempts for this email within the last 15 minutes. -/
def recentFailed (now : Int) (logs : List AuthLog) (email : Str) : List AuthLog :=
  logs.filter (fun l =>
    decide (l.email = email) && decide (l.action = LogAction.loginFailed) &&
    decide (l.timestamp > now - 15 * 60 * 1000))

/-- Computes `Math.ceil(d / 1000 / 60)` for a positive millisecond distance. -/
def jsCeilMinutes (d : Int) : Nat := (d.toNat + 59999) / 60000

/-- Embeds `checkAccountLockout`: five or more recent failures lock the account
until 15 minutes after the last entry of the filtered list; reports the
remaining minutes. -/
def checkAccountLockout (now : Int) (st : AuthState) (email : Str) : Option Nat :=
  if (recentFailed now st.authenticationLogs email).length ≥ 5 then
    match (recentFailed now st.authenticationLogs email).getLast? with
    | some last =>
      if now < last.timestamp + 15 * 60 * 1000 then
        some (jsCeilMinutes (last.timestamp + 15 * 60 * 1000 - now))
      else none
    | none => none
  else none

/-- Embeds `checkDeletedAccount`: first account whose email matches
case-insensitively, or whose phone strictly equals a truthy requested
phone. -/
def checkDeletedAccount (accounts : List DeletedAccount) (email : Str)
    (phone : Option Str) : Option DeletedAccount :=
  accounts.find? (fun d =>
    decide (lowerStr d.email = lowerStr email) ||
    (match phone with
     | some p => !p.isEmpty && decide (d.phone = some p)
     | none => false))

/-- The distinct error messages `login` can throw. -/
inductive LoginError where
  | invalidEmailFormat
  | locked (remainingMinutes : Nat)
  | notRegistered
  | deletedAccount
  | invalidPassword
  deriving Repr, DecidableEq

/-- Append one authentication-log entry. -/
def appendLog (st : AuthState) (l : AuthLog) : AuthState :=
  { st with authenticationLogs := st.authenticationLogs ++ [l] }

/-- Embeds `addDeletionAuditEntry`: append an audit action to the account with
the given id. -/
def addAudit (accounts : List DeletedAccount) (id : Str) (a : AuditAction) :
    List DeletedAccount :=
  accounts.map (fun acc =>
    if acc.id = id then { acc with auditTrail := acc.auditTrail ++ [a] } else acc)

/-- Embeds `login`: format check, lockout check, registration check, deleted
check, then mock password validation (length ≥ 6 accepted). -/
def login (now : Int) (st : AuthState) (email password : Str) :
    AuthState × Except LoginError Unit :=
  if !emailFormatValid email then (st, .error .invalidEmailFormat)
  else
    match checkAccountLockout now st email with
    | some m =>
      (appendLog st ⟨email, .loginFailed, false, now⟩, .error (.locked m))
    | none =>
      if !checkEmailExists st email then
        (appendLog st ⟨email, .loginFailed, false, now⟩, .error .notRegistered)
      else
        match checkDeletedAccount st.deletedAccounts email none with
        | some acc =>
          ({ appendLog st ⟨email, .loginFailed, false, now⟩ with
              deletedAccounts := addAudit st.deletedAccounts acc.id
                .reregistrationAttempted },
            .error .deletedAccount)
        | none =>
          if password.length < 6 then
            (appendLog st ⟨email, .loginFailed, false, now⟩, .error .invalidPassword)
          else
            ({ appendLog st ⟨email, .loginSuccess, true, now⟩ with
                user := some email, isAuthenticated := true }, .ok ())

/-- The distinct error messages `register` can throw. -/
inductive RegError where
  | invalidEmailFormat
  | emailExists
  | deletedCredentials
  | similarInfoBlocked
  deriving Repr, DecidableEq

/-- The registration request payload (password is not inspected by
`register`). -/
structure RegData where
  email : Str
  firstName : Str
  lastName : Str
  phone : Option Str
  deriving Repr, DecidableEq

/-- The "similar personal information" predicate of `register`:
case-insensitive first and last name match, together with strict equality
of phones (`undefined === undefined` holds) or of emails. -/
def similarPred (ud : RegData) (d : DeletedAccount) : Bool :=
  decide (lowerStr d.firstName = lowerStr ud.firstName) &&
  decide (lowerStr d.lastName = lowerStr ud.lastName) &&
  (decide (d.phone = ud.phone) || decide (d.email = ud.email))

/-- The `RegistrationAttempt` entry `register` appends. -/
def mkAttempt (ud : RegData) (blocked : Bool) (reason : Option BlockReason)
    (accId : Option Str) : RegistrationAttempt :=
  ⟨ud.email, ud.firstName, ud.lastName, ud.phone, blocked, reason, accId⟩

/-- Embeds `register`: format check, duplicate-email check, deleted-credentials
check, similar-information check, then account creation. -/
def register (now : Int) (st : AuthState) (ud : RegData) :
    AuthState × Except RegError Unit :=
  if !emailFormatValid ud.email then (st, .error .invalidEmailFormat)
  else if checkEmailExists st ud.email then
    (appendLog st ⟨ud.email, .registrationAttempt, false, now⟩, .error .emailExists)
  else
    match checkDeletedAccount st.deletedAccounts ud.email ud.phone with
    | some acc =>
      ({ st with
          registrationAttempts := st.registrationAttempts ++
            [mkAttempt ud true (some .deletedCredentials) (some acc.id)],
          authenticationLogs := st.authenticationLogs ++
            [⟨ud.email, .registrationAttempt, false, now⟩],
          deletedAccounts := addAudit st.deletedAccounts acc.id
            .reregistrationAttempted },
        .error .deletedCredentials)
    | none =>
      match st.deletedAccounts.find? (similarPred ud) with
      | some acc =>
        ({ st with
            registrationAttempts := st.registrationAttempts ++
              [mkAttempt ud true (some .similarInfo) (some acc.id)],
            authenticationLogs := st.authenticationLogs ++
              [⟨ud.email, .registrationAttempt, false, now⟩],
            deletedAccounts := addAudit st.deletedAccounts acc.id
              .reregistrationAttempted },
          .error .similarInfoBlocked)
      | none =>
        ({ st with
            registrationAttempts := st.registrationAttempts ++
              [mkAttempt ud false none none],
            registeredEmails := st.registeredEmails ++ [lowerStr ud.email],
            authenticationLogs := st.authenticationLogs ++
              [⟨ud.email, .registrationAttempt, true, now⟩],
            user := some ud.email,
            isAuthenticated := true },
          .ok ())

/-- Account `del_001` of the mock deleted accounts. -/
def delAccount001 : DeletedAccount :=
  ⟨str "del_001", str "deleted.user@example.com", str "John", str "Deleted",
    some (str "+1-555-0123"), [AuditAction.accountDeleted]⟩

/-- Account `del_002` of the mock deleted accounts. -/
def delAccount002 : DeletedAccount :=
  ⟨str "del_002", str "test.deleted@company.com", str "Jane", str "Smith",
    some (str "+1-555-0456"), [AuditAction.accountDeleted]⟩

/-- The seeded mock registered-emails database. -/
def mockRegisteredEmails : List Str :=
  [str "john.doe@example.com", str "jane.smith@company.com",
   str "admin@factorylink.com", str "test.user@demo.com",
   str "procurement@manufacturing.com"]

/-- The auth-store state at startup. -/
def initAuthState : AuthState :=
  ⟨none, false, [delAccount001, delAccount002], [], [], mockRegisteredEmails⟩

/-- In a list sorted by non-decreasing timestamps, the last element is a
member and bounds every timestamp. -/
theorem getLast?_timestamp_ub :
    ∀ (l : List AuthLog), l.Pairwise (fun a b => a.timestamp ≤ b.timestamp) →
    ∀ g, l.getLast? = some g →
    (∀ x ∈ l, x.timestamp ≤ g.timestamp) ∧ g ∈ l := by
  intro l
  induction l with
  | nil =>
    intro _ g hg
    simp at hg
  | cons a t ih =>
    intro hp g hg
    cases t with
    | nil =>
      simp at hg
      subst hg
      exact ⟨by intro x hx; simp at hx; subst hx; exact le_refl _, by simp⟩
    | cons b t' =>
      have hg' : (b :: t').getLast? = some g := by
        rw [← List.getLast?_cons_cons]
        exact hg
      have hale := (List.pairwise_cons.mp hp).1
      have hp' := (List.pairwise_cons.mp hp).2
      obtain ⟨hub, hmem⟩ := ih hp' g hg'
      refine ⟨?_, List.mem_cons_of_mem a hmem⟩
      intro x hx
      rcases List.mem_cons.mp hx with rfl | hx'
      · exact hale g hmem
      · exact hub x hx'

/-- C4: five or more failed-login log entries for an email within the 15
minutes before a login call, with the call made before 15 minutes have
elapsed since the most recent of them (`tmax`), make `login` reject as
locked for every password, reporting `ceil` of the remaining time in
minutes. -/
theorem c4_lockout (now : Int) (st : AuthState) (email password : Str) (tmax : Int)
    (hfmt : emailFormatValid email = true)
    (hsorted : st.authenticationLogs.Pairwise (fun a b => a.timestamp ≤ b.timestamp))
    (hcount : 5 ≤ (recentFailed now st.authenticationLogs email).length)
    (hmem : ∃ e ∈ recentFailed now st.authenticationLogs email, e.timestamp = tmax)
    (hub : ∀ e ∈ recentFailed now st.authenticationLogs email, e.timestamp ≤ tmax)
    (hnow : now < tmax + 15 * 60 * 1000) :
    (login now st email password).2 =
      Except.error (LoginError.locked (jsCeilMinutes (tmax + 15 * 60 * 1000 - now))) := by
  have hsortedf : (recentFailed now st.authenticationLogs email).Pairwise
      (fun a b => a.timestamp ≤ b.timestamp) := hsorted.filter _
  have hne : recentFailed now st.authenticationLogs email ≠ [] := by
    intro h
    rw [h] at hcount
    simp at hcount
  obtain ⟨g, hg⟩ : ∃ g, (recentFailed now st.authenticationLogs email).getLast? = some g := by
    cases hl : (recentFailed now st.authenticationLogs email).getLast? with
    | none => exact absurd (List.getLast?_eq_none_iff.mp hl) hne
    | some g => exact ⟨g, rfl⟩
  obtain ⟨hubg, hgmem⟩ := getLast?_timestamp_ub _ hsortedf g hg
  obtain ⟨e, hemem, hetmax⟩ := hmem
  have hgt : g.timestamp = tmax :=
    le_antisymm (hub g hgmem) (hetmax ▸ hubg e hemem)
  have hlock : checkAccountLockout now st email =
      some (jsCeilMinutes (tmax + 15 * 60 * 1000 - now)) := by
    unfold checkAccountLockout
    rw [if_pos hcount, hg]
    dsimp only
    rw [hgt, if_pos hnow]
  simp [login, hfmt, hlock]

/-- Five failed login attempts for the same email at millisecond
timestamps 0..4. -/
def lockLogs : List AuthLog :=
  [⟨str "john.doe@example.com", .loginFailed, false, 0⟩,
   ⟨str "john.doe@example.com", .loginFailed, false, 1⟩,
   ⟨str "john.doe@example.com", .loginFailed, false, 2⟩,
   ⟨str "john.doe@example.com", .loginFailed, false, 3⟩,
   ⟨str "john.doe@example.com", .loginFailed, false, 4⟩]

/-- The store state after those five failures. -/
def lockedAuthState : AuthState := { initAuthState with authenticationLogs := lockLogs }

/-- C4, witnessed: the sixth attempt is rejected as locked even with a
well-formed password. -/
theorem c4_lockout_witness :
    (login 5 lockedAuthState (str "john.doe@example.com") (str "correct-horse")).2 =
      Except.error (LoginError.locked (jsCeilMinutes (4 + 15 * 60 * 1000 - 5))) :=
  c4_lockout 5 lockedAuthState (str "john.doe@example.com") (str "correct-horse") 4
    (by decide) (by decide) (by decide)
    ⟨⟨str "john.doe@example.com", LogAction.loginFailed, false, 4⟩, by decide, by decide⟩
    (by decide) (by decide)

/-- C5: a registration whose email is unregistered but matches a deleted
account's email case-insensitively is rejected with the
deleted-credentials error; exactly one blocked attempt carrying the
matched account's id is appended, and `registeredEmails`, `user` and
`isAuthenticated` are unchanged. -/
theorem c5_register_deleted_email (now : Int) (st : AuthState) (ud : RegData)
    (acc : DeletedAccount)
    (hfmt : emailFormatValid ud.email = true)
    (hnotreg : checkEmailExists st ud.email = false)
    (_hdelmail : ∃ d ∈ st.deletedAccounts, lowerStr d.email = lowerStr ud.email)
    (hfind : checkDeletedAccount st.deletedAccounts ud.email ud.phone = some acc) :
    (register now st ud).2 = Except.error RegError.deletedCredentials ∧
    (register now st ud).1.registrationAttempts = st.registrationAttempts ++
      [mkAttempt ud true (some BlockReason.deletedCredentials) (some acc.id)] ∧
    (register now st ud).1.registeredEmails = st.registeredEmails ∧
    (register now st ud).1.user = st.user ∧
    (register now st ud).1.isAuthenticated = st.isAuthenticated := by
  unfold register
  rw [hfmt, hnotreg, hfind]
  simp

/-- The registration request used to witness C5. -/
def regDeletedEmail : RegData :=
  ⟨str "Deleted.User@example.com", str "New", str "Person", none⟩

/-- C5, witnessed against the seeded mock store. -/
theorem c5_register_deleted_email_witness :
    (register 99 initAuthState regDeletedEmail).2 =
      Except.error RegError.deletedCredentials ∧
    (register 99 initAuthState regDeletedEmail).1.registrationAttempts =
      initAuthState.registrationAttempts ++
        [mkAttempt regDeletedEmail true (some BlockReason.deletedCredentials)
          (some delAccount001.id)] ∧
    (register 99 initAuthState regDeletedEmail).1.registeredEmails =
      initAuthState.registeredEmails :=
  have h := c5_register_deleted_email 99 initAuthState regDeletedEmail delAccount001
    (by decide) (by decide) ⟨delAccount001, by decide, by decide⟩ (by decide)
  ⟨h.1, h.2.1, h.2.2.1⟩

/-- C10: a registration whose email is unregistered and which matches no
deleted account's email or (truthy) phone is still rejected when some
deleted account shares first and last name case-insensitively and its
phone strictly equals the request's phone, or its email the request's
email: one blocked attempt is appended and no email is registered. -/
theorem c10_register_similar_blocked (now : Int) (st : AuthState) (ud : RegData)
    (acc : DeletedAccount)
    (hfmt : emailFormatValid ud.email = true)
    (hnotreg : checkEmailExists st ud.email = false)
    (hnodel : checkDeletedAccount st.deletedAccounts ud.email ud.phone = none)
    (_hsim : ∃ d ∈ st.deletedAccounts, similarPred ud d = true)
    (hfind : st.deletedAccounts.find? (similarPred ud) = some acc) :
    (register now st ud).2 = Except.error RegError.similarInfoBlocked ∧
    (register now st ud).1.registrationAttempts = st.registrationAttempts ++
      [mkAttempt ud true (some BlockReason.similarInfo) (some acc.id)] ∧
    (register now st ud).1.registeredEmails = st.registeredEmails ∧
    (register now st ud).1.user = st.user ∧
    (register now st ud).1.isAuthenticated = st.isAuthenticated := by
  unfold register
  rw [hfmt, hnotreg, hnodel, hfind]
  simp

/-- A deleted account with no phone on file. -/
def delAccountNoPhone : DeletedAccount :=
  ⟨str "del_003", str "ghost@example.com", str "Alex", str "Ghost", none, []⟩

/-- A store whose deleted accounts include one without a phone. -/
def simAuthState : AuthState :=
  { initAuthState with
      deletedAccounts := [delAccount001, delAccount002, delAccountNoPhone] }

/-- The registration request used to witness C10: fresh email, no phone,
but the same name as the phoneless deleted account. -/
def regSimilarInfo : RegData :=
  ⟨str "alex.new@mail.com", str "alex", str "GHOST", none⟩

/-- C10, witnessed: blocked although neither email nor truthy phone
matches any deleted account. -/
theorem c10_register_similar_blocked_witness :
    (register 7 simAuthState regSimilarInfo).2 =
      Except.error RegError.similarInfoBlocked ∧
    (register 7 simAuthState regSimilarInfo).1.registeredEmails =
      simAuthState.registeredEmails :=
  have h := c10_register_similar_blocked 7 simAuthState regSimilarInfo delAccountNoPhone
    (by decide) (by decide) (by decide) ⟨delAccountNoPhone, by decide, by decide⟩
    (by decide)
  ⟨h.1, h.2.2.1⟩
